import Mathlib

/-!
Verification development for the resilient knowledge-store layer of the
`yitam-admin` server (`src/server/src/core/database-service.ts`).

The TypeScript source is shallowly embedded below:

* `DocumentChunk` mirrors the chunk record persisted by the service
  (fields as used in `database-service.ts`; optional TS fields become
  `Option`, the embedding's float entries become exact rationals `ℚ`).
* The in-memory fallback store (`inMemoryDocuments`, a JS `Map` from chunk
  id to record) is embedded as an association list in insertion order;
  `Map.set` overwrites in place for an existing key and appends otherwise.
* Each public operation of `DatabaseService` has two bodies — the fallback
  closure operating on the local store and the Qdrant closure talking to
  the external backend.  The fallback bodies are embedded as pure functions
  on the store.  The Qdrant bodies are embedded with the external client
  calls abstracted as `Except`-valued oracle fields of a small backend
  structure, one field per distinct client call the body makes, so that the
  body's own control flow (tier ordering, catch blocks, client-side
  filtering) is taken verbatim from the source.
* Floating point arithmetic is idealized over `ℝ` (`Math.sqrt` becomes
  `Real.sqrt`); the inputs stay exact rationals.
-/

namespace YitamAdmin

/-- Chunk record as consumed by `database-service.ts` (the defining module
`services/chunking.ts` is outside the store layer; the field set below is
exactly the set of fields `database-service.ts` reads). -/
structure DocumentChunk where
  id : String
  documentName : String
  content : String
  enhancedContent : Option String
  title : Option String
  summary : Option String
  sourceFile : Option String
  domains : Option (List String)
  embedding : List ℚ
deriving DecidableEq, Repr

/-- The `SearchResult` interface (lines 20–30 of the source). -/
structure SearchResult where
  id : String
  documentName : String
  content : String
  enhancedContent : Option String
  title : Option String
  summary : Option String
  sourceFile : Option String
  domains : Option (List String)
  score : ℝ

/-- The in-memory fallback store `inMemoryDocuments : Map<string, {document}>`,
as an association list in JS `Map` insertion order. -/
abbrev Store := List (String × DocumentChunk)

/-- JS `String.prototype.startsWith` (the source's `id.startsWith(pattern)`),
embedded as a character-list prefix test so that concrete scenarios evaluate
inside the kernel; on the code-unit level this is exactly what the JS
builtin (and `String.startsWith`) computes. -/
def jsStartsWith (s pre : String) : Bool := pre.data.isPrefixOf s.data

/-- JS `Map.set`: overwrite in place when the key is present, append otherwise. -/
def mapSet (m : Store) (k : String) (v : DocumentChunk) : Store :=
  if m.any (fun p => p.1 = k) then
    m.map (fun p => if p.1 = k then (k, v) else p)
  else
    m ++ [(k, v)]

/-- Configuration `VECTOR_SIZE = parseInt(process.env.GEMINI_VECTOR_SIZE || '768', 10)`:
the configured vector dimension, at its default. -/
def VECTOR_SIZE : Nat := 768

/-- The `dotProduct` accumulator of `cosineSimilarity` (the source loop runs
only when both lists have equal length, so `zipWith` truncation is exact). -/
def dotProduct (a b : List ℚ) : ℚ := (List.zipWith (· * ·) a b).sum

/-- The `aMagnitude`/`bMagnitude` accumulators of `cosineSimilarity` before
the square root is taken: the sum of squared entries. -/
def sumSq (a : List ℚ) : ℚ := (a.map (fun x => x * x)).sum

/-- Source method `DatabaseService.cosineSimilarity` (lines 135–153): returns 0 when the
lengths differ, computes the dot product and both magnitudes, takes square
roots, returns 0 when either magnitude is 0, otherwise the normalized dot
product.  Floats idealized over `ℝ`. -/
noncomputable def cosineSimilarity (a b : List ℚ) : ℝ :=
  if a.length ≠ b.length then 0
  else if Real.sqrt (sumSq a) = 0 ∨ Real.sqrt (sumSq b) = 0 then 0
  else (dotProduct a b : ℝ) / (Real.sqrt (sumSq a) * Real.sqrt (sumSq b))

/-- Fallback body of `addDocumentChunks` (lines 97–101): store every chunk
under its id via `Map.set`. -/
def addDocumentChunksFallback (documents : List DocumentChunk) (store : Store) : Store :=
  documents.foldl (fun st doc => mapSet st doc.id doc) store

/-- The result row built by the fallback body of `searchByVector`
(lines 163–176): note `domains` is passed through unchanged. -/
noncomputable def searchFallbackRow (queryVector : List ℚ) (doc : DocumentChunk) : SearchResult :=
  { id := doc.id
    documentName := doc.documentName
    content := doc.content
    enhancedContent := doc.enhancedContent
    title := doc.title
    summary := doc.summary
    sourceFile := doc.sourceFile
    domains := doc.domains
    score := cosineSimilarity queryVector doc.embedding }

/-- Descending-by-score order used by `.sort((a, b) => b.score - a.score)`. -/
def scoreGE (a b : SearchResult) : Prop := b.score ≤ a.score

noncomputable instance : DecidableRel scoreGE :=
  fun a b => inferInstanceAs (Decidable (b.score ≤ a.score))

instance : IsTotal SearchResult scoreGE := ⟨fun a b => le_total b.score a.score⟩

instance : IsTrans SearchResult scoreGE :=
  ⟨fun _ _ _ h h' => le_trans h' h⟩

/-- Fallback body of `searchByVector` (lines 160–178): map every stored
record to a scored row, sort descending by score, truncate to `limit`.
(The JS engine's sort is stable; no theorem below depends on the order among
equal scores, so a standard insertion sort stands in for it.) -/
noncomputable def searchByVectorFallback (store : Store) (queryVector : List ℚ)
    (limit : Nat := 10) : List SearchResult :=
  (((store.map Prod.snd).map (searchFallbackRow queryVector)).insertionSort scoreGE).take limit

/-- Fallback body of `doesTranscriptExist` (lines 215–222), parametrized by
the id pattern (the public method instantiates `idPattern = "youtube_" ++ videoId`). -/
def doesTranscriptExistFallback (store : Store) (idPattern : String) : Bool :=
  (store.map Prod.snd).any (fun doc => jsStartsWith doc.id idPattern)

/-- Fallback body of `deleteYoutubeTranscriptChunks` (lines 288–298):
remove every entry whose record id starts with the pattern, returning the
new store and the number of removed entries. -/
def deleteYoutubeTranscriptChunksFallback (store : Store) (idPattern : String) : Store × Nat :=
  (store.filter (fun p => ¬ jsStartsWith p.2.id idPattern),
   (store.filter (fun p => jsStartsWith p.2.id idPattern)).length)

/-- Fallback body of `countYoutubeTranscriptChunks` (lines 392–401). -/
def countYoutubeTranscriptChunksFallback (store : Store) (idPattern : String) : Nat :=
  (store.map Prod.snd).countP (fun doc => jsStartsWith doc.id idPattern)

/-- JS `Set.add` on an insertion-ordered list of names. -/
def insertUnique (l : List String) (s : String) : List String :=
  if s ∈ l then l else l ++ [s]

/-- Fallback body of `getUniqueDocumentNames` (lines 463–473): collect the
distinct document names into a `Set` (`if (item.document.documentName)` is a
JS truthiness test, skipping the empty string). -/
def getUniqueDocumentNamesFallback (store : Store) : List String :=
  store.foldl
    (fun acc p => if p.2.documentName ≠ "" then insertUnique acc p.2.documentName else acc) []

/-- Fallback body of `getChunksByDocumentName` (lines 518–535): filter by
exact document name, then map to result rows with the constant sentinel
score `1.0`; `domains` is passed through unchanged. -/
def getChunksByDocumentNameFallback (store : Store) (documentName : String) : List SearchResult :=
  ((store.map Prod.snd).filter (fun doc => doc.documentName = documentName)).map
    (fun doc =>
      { id := doc.id
        documentName := doc.documentName
        content := doc.content
        enhancedContent := doc.enhancedContent
        title := doc.title
        summary := doc.summary
        sourceFile := doc.sourceFile
        domains := doc.domains
        score := 1 })

/-- Fallback body of `deleteChunksByIds` (lines 599–611): delete each listed
id that is present, counting the deletions. -/
def deleteChunksByIdsFallback (chunkIds : List String) (store : Store) : Store × Nat :=
  chunkIds.foldl
    (fun st id =>
      if st.1.any (fun p => p.1 = id) then (st.1.filter (fun p => p.1 ≠ id), st.2 + 1) else st)
    (store, 0)

/-! ### Qdrant side

A point stored in the Qdrant collection.  The upsert in `addDocumentChunks`
(lines 107–122) keys each point by a fresh surrogate uuid and stores every
chunk field in the payload, so payloads of points in the collection have
exactly the chunk's field set. -/

/-- Point payload as written by `addDocumentChunks` (lines 111–120). -/
structure QPayload where
  id : String
  documentName : String
  content : String
  enhancedContent : Option String
  title : Option String
  summary : Option String
  sourceFile : Option String
  domains : Option (List String)
deriving DecidableEq, Repr

/-- A backend point: surrogate uuid key plus payload. -/
structure QPoint where
  pointId : String
  payload : QPayload
deriving DecidableEq, Repr

/-- Payload of a chunk: the payload built at upsert time (lines 111–120). -/
def payloadOf (doc : DocumentChunk) : QPayload :=
  { id := doc.id
    documentName := doc.documentName
    content := doc.content
    enhancedContent := doc.enhancedContent
    title := doc.title
    summary := doc.summary
    sourceFile := doc.sourceFile
    domains := doc.domains }

/-- The client-side test `payload.id && payload.id.startsWith(idPattern)`
used by the scroll tiers (lines 266–269, 347–352, 437–442); the leading
conjunct is a JS truthiness test, so the empty string fails it. -/
def payloadIdMatches (p : QPayload) (idPattern : String) : Bool :=
  p.id != "" && jsStartsWith p.id idPattern

/-- JS `payload.domains || ['default']` (lines 199 and 575): `undefined`
becomes `["default"]`; any present array (even empty, which is truthy in JS)
is kept. -/
def jsDomainsOrDefault (domains : Option (List String)) : List String :=
  domains.getD ["default"]

/-- Result row built from a Qdrant search hit (lines 188–202). -/
def qdrantSearchRow (p : QPayload) (score : ℝ) : SearchResult :=
  { id := p.id
    documentName := p.documentName
    content := p.content
    enhancedContent := p.enhancedContent
    title := p.title
    summary := p.summary
    sourceFile := p.sourceFile
    domains := some (jsDomainsOrDefault p.domains)
    score := score }

/-- Result row built from a Qdrant scroll point in `getChunksByDocumentName`
(lines 564–578): constant sentinel score `1.0`, `domains` defaulted. -/
def qdrantChunkRow (p : QPayload) : SearchResult :=
  { id := p.id
    documentName := p.documentName
    content := p.content
    enhancedContent := p.enhancedContent
    title := p.title
    summary := p.summary
    sourceFile := p.sourceFile
    domains := some (jsDomainsOrDefault p.domains)
    score := 1 }

/-- The page Qdrant returns for the single `scroll({limit: 100})` call of the
last tier of `doesTranscriptExist` (lines 260–263): the first at most 100
points of the collection. -/
def scrollSinglePage (collection : List QPoint) : List QPoint :=
  collection.take 100

/-! Backend oracles.  Each field is the outcome of one distinct Qdrant client
call a tiered body makes: `Except.error` models the call throwing.  The
do-while scroll loops of the second tiers (lines 340–355 and 430–445)
accumulate every page of the collection; they are modelled as one atomic
scan that either delivers all points in collection order or throws. -/

/-- Oracle for the Qdrant body of `doesTranscriptExist` (lines 224–276). -/
structure ExistBackend where
  countRes : Except Unit Nat
  scrollFilteredRes : Except Unit (List QPoint)
  scrollPageRes : Except Unit (List QPoint)

/-- Oracle for the Qdrant body of `countYoutubeTranscriptChunks`
(lines 404–452). -/
structure CountBackend where
  countRes : Except Unit Nat
  scrollRes : Except Unit (List QPoint)

/-- Oracle for the Qdrant body of `deleteYoutubeTranscriptChunks`
(lines 301–380). -/
structure DeleteBackend where
  countRes : Except Unit Nat
  deleteFilterRes : Except Unit Unit
  scrollRes : Except Unit (List QPoint)
  deleteBatchRes : Except Unit Unit

/-- Qdrant body of `doesTranscriptExist` (lines 224–276), returning the
result together with the list of client calls issued.  Tier 1: filtered
`count`; on error tier 2: filtered `scroll` with limit 1; on error tier 3: a
single unfiltered `scroll` page tested client-side; on error: `false`. -/
def doesTranscriptExistQdrant (b : ExistBackend) (idPattern : String) :
    Except Unit Bool × List String :=
  match b.countRes with
  | .ok c => (.ok (decide (0 < c)), ["count"])
  | .error _ =>
    match b.scrollFilteredRes with
    | .ok pts => (.ok (decide (0 < pts.length)), ["count", "scrollFiltered"])
    | .error _ =>
      match b.scrollPageRes with
      | .ok pts =>
        (.ok (pts.any (fun pt => payloadIdMatches pt.payload idPattern)),
         ["count", "scrollFiltered", "scrollPage"])
      | .error _ => (.ok false, ["count", "scrollFiltered", "scrollPage"])

/-- Qdrant body of `countYoutubeTranscriptChunks` (lines 404–452).  Tier 1:
filtered `count`; on error tier 2: unfiltered paginated scroll counting
client-side; when the scroll also throws, the body re-throws the tier-1
error (`throw error`, line 450). -/
def countYoutubeTranscriptChunksQdrant (b : CountBackend) (idPattern : String) :
    Except Unit Nat × List String :=
  match b.countRes with
  | .ok c => (.ok c, ["count"])
  | .error e =>
    match b.scrollRes with
    | .ok pts =>
      (.ok (pts.countP (fun pt => payloadIdMatches pt.payload idPattern)), ["count", "scroll"])
    | .error _ => (.error e, ["count", "scroll"])

/-- The catch block of `deleteYoutubeTranscriptChunks` (lines 330–379):
unfiltered paginated scroll collecting the surrogate ids of matching points
(`String(point.id)`, line 350), early `return 0` when none match, then the
batched delete-by-id whose success returns the collected length; when the
scroll or the batched delete throws, the original tier-1 error `e` is
re-thrown (`throw error`, line 377). -/
def deleteTier2 (b : DeleteBackend) (idPattern : String) (e : Unit) (calls : List String) :
    Except Unit Nat × List String :=
  match b.scrollRes with
  | .ok pts =>
    match (pts.filter (fun pt => payloadIdMatches pt.payload idPattern)).map QPoint.pointId with
    | [] => (.ok 0, calls ++ ["scroll"])
    | ids =>
      match b.deleteBatchRes with
      | .ok _ => (.ok ids.length, calls ++ ["scroll", "deleteBatch"])
      | .error _ => (.error e, calls ++ ["scroll", "deleteBatch"])
  | .error _ => (.error e, calls ++ ["scroll"])

/-- Qdrant body of `deleteYoutubeTranscriptChunks` (lines 301–380).  Tier 1:
filtered `count`, early `return 0` on zero, then filtered `delete` returning
the pre-delete count.  On error (from either call) the catch block
`deleteTier2` runs. -/
def deleteYoutubeTranscriptChunksQdrant (b : DeleteBackend) (idPattern : String) :
    Except Unit Nat × List String :=
  match b.countRes with
  | .ok c =>
    if c = 0 then (.ok 0, ["count"])
    else
      match b.deleteFilterRes with
      | .ok _ => (.ok c, ["count", "deleteFilter"])
      | .error e => deleteTier2 b idPattern e ["count", "deleteFilter"]
  | .error e => deleteTier2 b idPattern e ["count"]

/-- Qdrant body of `addDocumentChunks` (lines 103–128): early `return` on an
empty list before any client call; otherwise build the points (surrogate
uuids from an abstract supply) and upsert.  The boolean records whether the
`upsert` client call was issued. -/
def addDocumentChunksQdrant (documents : List DocumentChunk)
    (upsertRes : List QPoint → Except Unit Unit) (uuid : Nat → String) :
    Except Unit Unit × Bool :=
  if documents.length = 0 then (.ok (), false)
  else
    (upsertRes (documents.mapIdx (fun i doc => ⟨uuid i, payloadOf doc⟩)), true)

/-- Qdrant body of `deleteChunksByIds` (lines 614–650): early `return 0` on
an empty id list before any client call; otherwise count by disjunctive
filter, early `return 0` on zero, delete by the filter, return the
pre-delete count; any error is caught and turned into `0`.  The boolean
records whether any client call was issued. -/
def deleteChunksByIdsQdrant (chunkIds : List String) (countRes : Except Unit Nat)
    (deleteRes : Except Unit Unit) : Except Unit Nat × Bool :=
  if chunkIds.length = 0 then (.ok 0, false)
  else
    match countRes with
    | .ok c =>
      if c = 0 then (.ok 0, true)
      else
        match deleteRes with
        | .ok _ => (.ok c, true)
        | .error _ => (.ok 0, true)
    | .error _ => (.ok 0, true)

/-! ### Resilience Coordinator

Modelled from the spec: `fallback-service.ts` (class `FallbackService`) is
not among the provided sources — only its call sites in
`database-service.ts` are.  The model below follows spec §4.1: a
process-lifetime boolean degraded flag plus a per-operation-name
warned set; `withFallback(name, fallbackFn, qdrantFn, forceFallback)` runs
the fallback when `forceFallback` or the flag is set, otherwise attempts the
primary and, on its error, sets the flag, warns once for the name, and runs
the fallback; `resetWarningFlag(name)` clears only the suppression entry for
the name. -/

/-- Coordinator state: the degraded flag and the warned operation names. -/
structure FallbackState where
  isFallbackActive : Bool
  warnedOperations : List String
deriving DecidableEq, Repr

/-- Modelled from the spec: emit a warning for `name` unless already warned
(only the suppression set is observable here). -/
def warnOnce (st : FallbackState) (name : String) : FallbackState :=
  if name ∈ st.warnedOperations then st
  else { st with warnedOperations := name :: st.warnedOperations }

/-- Modelled from the spec: `resetWarningFlag` clears the suppression entry
for the operation name (spec §4.1); the degraded flag is untouched. -/
def resetWarningFlag (st : FallbackState) (name : String) : FallbackState :=
  { st with warnedOperations := st.warnedOperations.filter (fun n => n ≠ name) }

/-- Outcome of one `withFallback` call: new coordinator state, new local
store, returned value, and whether the primary function was invoked. -/
structure CallOutcome (σ α : Type) where
  state : FallbackState
  store : σ
  value : α
  usedPrimary : Bool

/-- Modelled from the spec: `FallbackService.withFallback` (spec §4.1).
The fallback function mutates the local store (`σ → σ × α`); the primary
function's outcome per call is an `Except`.  If `forceFallback` or the flag
is set, the fallback runs and the primary is not attempted; otherwise the
primary runs, and on error the flag is set, a one-time warning is emitted,
and the fallback's result is returned (the error is swallowed). -/
def withFallback (st : FallbackState) (store : σ) (name : String)
    (fallbackFn : σ → σ × α) (qdrantRes : Except Unit α) (forceFallback : Bool) :
    CallOutcome σ α :=
  if forceFallback || st.isFallbackActive then
    let r := fallbackFn store
    ⟨warnOnce st name, r.1, r.2, false⟩
  else
    match qdrantRes with
    | .ok v => ⟨st, store, v, true⟩
    | .error _ =>
      let r := fallbackFn store
      ⟨warnOnce { st with isFallbackActive := true } name, r.1, r.2, false⟩

/-- One façade operation: its name, fallback body and primary outcome. -/
structure StoreOp (σ α : Type) where
  name : String
  fallbackFn : σ → σ × α
  qdrantRes : Except Unit α

/-- Run a sequence of façade operations through the Coordinator, each call
passing `isFallbackActive` as `forceFallback` exactly as every call site in
`database-service.ts` does.  Returns the final coordinator state, final
store, and per-call `(value, usedPrimary)` pairs. -/
def runOps : FallbackState → σ → List (StoreOp σ α) →
    FallbackState × σ × List (α × Bool)
  | st, store, [] => (st, store, [])
  | st, store, op :: ops =>
    let out := withFallback st store op.name op.fallbackFn op.qdrantRes st.isFallbackActive
    let rest := runOps out.state out.store ops
    (rest.1, rest.2.1, (out.value, out.usedPrimary) :: rest.2.2)

/-- Reference interpreter: run only the fallback bodies, never touching the
primary backend. -/
def runFallbackOnly : σ → List (StoreOp σ α) → σ × List α
  | store, [] => (store, [])
  | store, op :: ops =>
    let r := op.fallbackFn store
    let rest := runFallbackOnly r.1 ops
    (rest.1, r.2 :: rest.2)

/-! ### Concrete fixtures used by the scenario theorems below -/

/-- Convenience constructor for a concrete chunk record. -/
def mkChunk (id docName : String) (domains : Option (List String)) (embedding : List ℚ) :
    DocumentChunk :=
  { id := id
    documentName := docName
    content := "content"
    enhancedContent := none
    title := none
    summary := none
    sourceFile := none
    domains := domains
    embedding := embedding }

/-- Scenario store: the three records `doc1_0`, `doc1_1`, `doc2_0` written to
an empty local store. -/
def storeC3 : Store :=
  addDocumentChunksFallback
    [mkChunk "doc1_0" "docOne" none [1], mkChunk "doc1_1" "docOne" none [1],
     mkChunk "doc2_0" "docTwo" none [1]] []

/-- Scenario store: five records with `domains` omitted, all named `nm`. -/
def storeNoDomains : Store :=
  addDocumentChunksFallback
    [mkChunk "r1" "nm" none [1], mkChunk "r2" "nm" none [1], mkChunk "r3" "nm" none [1],
     mkChunk "r4" "nm" none [1], mkChunk "r5" "nm" none [1]] []

/-- A record whose embedding length (2) differs from the configured vector
dimension (768). -/
def badDimChunk : DocumentChunk := mkChunk "bad" "nm" none [1, 2]

/-- A backend point whose payload id does not start with `youtube_v`. -/
def pointNonMatching : QPoint := ⟨"u1", payloadOf (mkChunk "other_1" "nm" none [1])⟩

/-- A backend point whose payload id starts with `youtube_v`. -/
def pointMatching : QPoint := ⟨"u2", payloadOf (mkChunk "youtube_v_0" "nm" none [1])⟩

/-- A 101-point collection whose only matching point sits beyond the first
100 positions. -/
def collection101 : List QPoint := List.replicate 100 pointNonMatching ++ [pointMatching]

/-- The backend state of `doesTranscriptExist`'s last tier: the filtered
`count` and the filtered scroll both throw, while the plain single-page
scroll succeeds and returns the first (at most) 100 points of the
collection. -/
def existBackendDegraded (collection : List QPoint) : ExistBackend :=
  ⟨.error (), .error (), .ok (scrollSinglePage collection)⟩

/-- Two-record fixture with orthogonal unit embeddings. -/
def chunkAxis1 : DocumentChunk := mkChunk "a_0" "da" none [1, 0]

/-- Second record of the orthogonal fixture. -/
def chunkAxis2 : DocumentChunk := mkChunk "b_0" "db" none [0, 1]

/-- The two-record store used to exercise the similarity search. -/
def storeAxes : Store := [("a_0", chunkAxis1), ("b_0", chunkAxis2)]

/-! ### Helper lemmas about the similarity arithmetic -/

theorem sumSq_nonneg (a : List ℚ) : 0 ≤ sumSq a := by
  induction a with
  | nil => simp [sumSq]
  | cons x xs ih =>
    have hx : 0 ≤ x * x := mul_self_nonneg x
    simp only [sumSq, List.map_cons, List.sum_cons] at *
    linarith

theorem dotProduct_self (v : List ℚ) : dotProduct v v = sumSq v := by
  induction v with
  | nil => simp [dotProduct, sumSq]
  | cons x xs ih =>
    simp only [dotProduct, sumSq, List.zipWith_cons_cons, List.map_cons, List.sum_cons] at *
    linarith

theorem two_mul_le_sq_add_sq (x y d A B : ℚ) (h : d ^ 2 ≤ A * B) (hA : 0 ≤ A) (hB : 0 ≤ B) :
    2 * (x * y) * d ≤ x ^ 2 * B + y ^ 2 * A := by
  have hprod :
      (x ^ 2 * B + y ^ 2 * A - 2 * (x * y) * d) * (x ^ 2 * B + y ^ 2 * A + 2 * (x * y) * d) =
        (x ^ 2 * B - y ^ 2 * A) ^ 2 + 4 * (x * y) ^ 2 * (A * B - d ^ 2) := by ring
  have hge : 0 ≤ (x ^ 2 * B - y ^ 2 * A) ^ 2 + 4 * (x * y) ^ 2 * (A * B - d ^ 2) := by
    have h1 : 0 ≤ (x ^ 2 * B - y ^ 2 * A) ^ 2 := sq_nonneg _
    have h2 : 0 ≤ 4 * (x * y) ^ 2 * (A * B - d ^ 2) := by
      have := sq_nonneg (x * y)
      nlinarith
    linarith
  have hsum : 0 ≤ x ^ 2 * B + y ^ 2 * A := by positivity
  nlinarith [hprod, hge, hsum]

/-- Cauchy–Schwarz for the list dot product (with `zipWith` truncation). -/
theorem dotProduct_sq_le (a : List ℚ) : ∀ b : List ℚ,
    dotProduct a b ^ 2 ≤ sumSq a * sumSq b := by
  induction a with
  | nil =>
    intro b
    simp [dotProduct, sumSq]
  | cons x xs ih =>
    intro b
    cases b with
    | nil =>
      have := mul_nonneg (sumSq_nonneg (x :: xs)) (le_refl (0 : ℚ))
      simp [dotProduct, sumSq]
    | cons y ys =>
      have hih := ih ys
      have hA := sumSq_nonneg xs
      have hB := sumSq_nonneg ys
      have hkey := two_mul_le_sq_add_sq x y (dotProduct xs ys) (sumSq xs) (sumSq ys) hih hA hB
      simp only [dotProduct, sumSq, List.zipWith_cons_cons, List.map_cons, List.sum_cons] at *
      nlinarith [hih, hkey]

theorem cosineSimilarity_le_one (a b : List ℚ) : cosineSimilarity a b ≤ 1 := by
  unfold cosineSimilarity
  split
  · exact zero_le_one
  · split
    · exact zero_le_one
    · rename_i hlen hmag
      push_neg at hmag
      obtain ⟨ha, hb⟩ := hmag
      have ha' : 0 < Real.sqrt (sumSq a) :=
        lt_of_le_of_ne (Real.sqrt_nonneg _) (Ne.symm ha)
      have hb' : 0 < Real.sqrt (sumSq b) :=
        lt_of_le_of_ne (Real.sqrt_nonneg _) (Ne.symm hb)
      rw [div_le_one (by positivity)]
      have h1 : (dotProduct a b : ℝ) ≤ |(dotProduct a b : ℝ)| := le_abs_self _
      have h2 : |(dotProduct a b : ℝ)| = Real.sqrt ((dotProduct a b : ℝ) ^ 2) :=
        (Real.sqrt_sq_eq_abs _).symm
      have hcs : ((dotProduct a b : ℝ)) ^ 2 ≤ (sumSq a : ℝ) * (sumSq b : ℝ) := by
        have := dotProduct_sq_le a b
        exact_mod_cast this
      have h3 : Real.sqrt ((dotProduct a b : ℝ) ^ 2) ≤
          Real.sqrt ((sumSq a : ℝ) * (sumSq b : ℝ)) := Real.sqrt_le_sqrt hcs
      have h4 : Real.sqrt ((sumSq a : ℝ) * (sumSq b : ℝ)) =
          Real.sqrt (sumSq a) * Real.sqrt (sumSq b) := by
        have : (0 : ℝ) ≤ (sumSq a : ℝ) := by exact_mod_cast sumSq_nonneg a
        exact Real.sqrt_mul this _
      calc (dotProduct a b : ℝ) ≤ Real.sqrt ((dotProduct a b : ℝ) ^ 2) := h2 ▸ h1
        _ ≤ Real.sqrt ((sumSq a : ℝ) * (sumSq b : ℝ)) := h3
        _ = Real.sqrt (sumSq a) * Real.sqrt (sumSq b) := h4

theorem cosineSimilarity_self (v : List ℚ) (hnz : sumSq v ≠ 0) :
    cosineSimilarity v v = 1 := by
  have hpos : (0 : ℝ) < (sumSq v : ℝ) := by
    have h0 : (0 : ℚ) ≤ sumSq v := sumSq_nonneg v
    have : (0 : ℚ) < sumSq v := lt_of_le_of_ne h0 (Ne.symm hnz)
    exact_mod_cast this
  have hsqrt : Real.sqrt (sumSq v) ≠ 0 := by
    have := Real.sqrt_pos.mpr hpos
    exact ne_of_gt this
  unfold cosineSimilarity
  rw [if_neg (by simp), if_neg (by simp [hsqrt])]
  rw [show ((dotProduct v v : ℚ) : ℝ) = ((sumSq v : ℚ) : ℝ) by
    exact_mod_cast congrArg (fun q : ℚ => (q : ℝ)) (dotProduct_self v)]
  rw [Real.mul_self_sqrt (le_of_lt hpos)]
  exact div_self (ne_of_gt hpos)

/-! ### Claim theorems -/

/-- C7: for every pair of vectors where either has zero magnitude (including
both zero), the Local Store's cosine similarity is exactly 0 — the guard of
lines 151–152 returns 0 instead of dividing by zero (in the idealized-real
embedding there is no NaN to produce). -/
theorem cosineSimilarity_zero_magnitude (a b : List ℚ)
    (h : sumSq a = 0 ∨ sumSq b = 0) : cosineSimilarity a b = 0 := by
  unfold cosineSimilarity
  split
  · rfl
  · rw [if_pos]
    rcases h with h | h
    · left
      rw [h]
      simp
    · right
      rw [h]
      simp

/-- Witness for C7 at the zero vector `[0, 0]` against `[1, 2]`. -/
theorem cosineSimilarity_zero_magnitude_witness :
    cosineSimilarity [0, 0] [1, 2] = 0 :=
  cosineSimilarity_zero_magnitude [0, 0] [1, 2] (Or.inl (by norm_num [sumSq]))

/-- C9: `addChunks([])` and `deleteByIds([])` are successful no-ops — the
fallback bodies leave the store unchanged and return `()`/0, and the Qdrant
bodies short-circuit (`documents.length === 0` / `chunkIds.length === 0`)
with `.ok`-results before issuing any client call (the `false` component
records that no backend call was made), for every backend outcome, so no
error can be raised. -/
theorem emptyInput_noop :
    (∀ store : Store, addDocumentChunksFallback [] store = store)
    ∧ (∀ (upsertRes : List QPoint → Except Unit Unit) (uuid : Nat → String),
        addDocumentChunksQdrant [] upsertRes uuid = (.ok (), false))
    ∧ (∀ store : Store, deleteChunksByIdsFallback [] store = (store, 0))
    ∧ (∀ (countRes : Except Unit Nat) (deleteRes : Except Unit Unit),
        deleteChunksByIdsQdrant [] countRes deleteRes = (.ok 0, false)) :=
  ⟨fun _ => rfl, fun _ _ => rfl, fun _ => rfl, fun _ _ => rfl⟩

/-- C3: after writing exactly `doc1_0`, `doc1_1`, `doc2_0` to an empty local
store, the prefix count for `doc1` is 2, the prefix delete for `doc1`
removes 2, and the unique document names afterwards contain `doc2_0`'s
document name but not that of the `doc1_*` records.  (The spec façade's
`countByIdPrefix`/`deleteByIdPrefix` are the prefix-parametrized bodies that
the source's `countYoutubeTranscriptChunks`/`deleteYoutubeTranscriptChunks`
instantiate with `idPattern = "youtube_" + videoId`.) -/
theorem prefixScenario :
    countYoutubeTranscriptChunksFallback storeC3 "doc1" = 2
    ∧ (deleteYoutubeTranscriptChunksFallback storeC3 "doc1").2 = 2
    ∧ "docTwo" ∈
        getUniqueDocumentNamesFallback (deleteYoutubeTranscriptChunksFallback storeC3 "doc1").1
    ∧ "docOne" ∉
        getUniqueDocumentNamesFallback (deleteYoutubeTranscriptChunksFallback storeC3 "doc1").1 := by
  decide

/-- C10: every result of `getChunksByDocumentName` carries score exactly 1.0
on the fallback path (constant of line 533) and on the primary path
(constant of line 576), and 1.0 is also the maximum possible
cosine-similarity score, so the sentinel is indistinguishable from a perfect
similarity match. -/
theorem chunksScoreSentinel :
    (∀ (store : Store) (name : String),
        (getChunksByDocumentNameFallback store name).map (fun r => r.score) =
          List.replicate
            ((store.map Prod.snd).filter (fun doc => doc.documentName = name)).length 1)
    ∧ (∀ p : QPayload, (qdrantChunkRow p).score = 1)
    ∧ (∀ a b : List ℚ, cosineSimilarity a b ≤ 1) := by
  refine ⟨?_, fun _ => rfl, cosineSimilarity_le_one⟩
  intro store name
  unfold getChunksByDocumentNameFallback
  rw [List.map_map]
  exact List.map_const' _ 1

/-- C4 counterexample: with the Local Store holding 5 records whose
`domains` field is absent, every result of the fallback path of
`getChunksByDocumentName` still has `domains` absent — not `["default"]` —
because the fallback row (line 532) passes `doc.domains` through without
defaulting. -/
theorem domainsDefault_cex :
    (getChunksByDocumentNameFallback storeNoDomains "nm").map (fun r => r.domains) =
      List.replicate 5 none
    ∧ List.replicate 5 (none : Option (List String)) ≠
        List.replicate 5 (some ["default"]) := by
  constructor
  · decide
  · decide

/-- C4 amended: only the primary (Qdrant) rows default an absent `domains`
field to `["default"]` (both the search row of line 199 and the
chunks-by-name row of line 575); the fallback rows of `searchByVector` and
`getChunksByDocumentName` pass each record's `domains` through unchanged, so
absent stays absent on the fallback path. -/
theorem domainsDefault_amended :
    (∀ (p : QPayload) (s : ℝ), p.domains = none →
        (qdrantSearchRow p s).domains = some ["default"]
        ∧ (qdrantChunkRow p).domains = some ["default"])
    ∧ (∀ (queryVector : List ℚ) (doc : DocumentChunk),
        (searchFallbackRow queryVector doc).domains = doc.domains)
    ∧ (∀ (store : Store) (name : String),
        (getChunksByDocumentNameFallback store name).map (fun r => r.domains) =
          ((store.map Prod.snd).filter (fun doc => doc.documentName = name)).map
            (fun doc => doc.domains)) := by
  refine ⟨?_, fun _ _ => rfl, ?_⟩
  · intro p s h
    constructor
    · simp [qdrantSearchRow, jsDomainsOrDefault, h]
    · simp [qdrantChunkRow, jsDomainsOrDefault, h]
  · intro store name
    simp [getChunksByDocumentNameFallback]

/-- Witness for the amended C4 at a concrete payload with absent domains. -/
theorem domainsDefault_amended_witness :
    (qdrantSearchRow (payloadOf (mkChunk "r1" "nm" none [1])) 0).domains = some ["default"]
    ∧ (qdrantChunkRow (payloadOf (mkChunk "r1" "nm" none [1]))).domains = some ["default"] :=
  domainsDefault_amended.1 (payloadOf (mkChunk "r1" "nm" none [1])) 0 rfl

/-- C5 counterexample: a record whose embedding length (2) differs from the
configured vector dimension (768) is silently stored by the fallback path of
`addDocumentChunks` (no dimension check, lines 97–101), and a
length-mismatched similarity comparison silently yields the valid score 0
(guard of line 136) instead of raising. -/
theorem dimensionMismatch_cex :
    badDimChunk.embedding.length ≠ VECTOR_SIZE
    ∧ addDocumentChunksFallback [badDimChunk] [] = [("bad", badDimChunk)]
    ∧ cosineSimilarity (List.replicate VECTOR_SIZE 1) badDimChunk.embedding = 0 := by
  refine ⟨by decide, rfl, ?_⟩
  unfold cosineSimilarity
  rw [if_pos]
  simp only [VECTOR_SIZE, List.length_replicate, badDimChunk, mkChunk]
  decide

/-- C5 amended: on the fallback (Local Store) path a dimension mismatch is
not fatal and is silently coerced — the record is stored unchanged whatever
its embedding length, and any similarity comparison between vectors of
different lengths returns the valid score 0 rather than raising. -/
theorem dimensionMismatch_amended :
    (∀ (doc : DocumentChunk) (store : Store),
        addDocumentChunksFallback [doc] store = mapSet store doc.id doc)
    ∧ (∀ a b : List ℚ, a.length ≠ b.length → cosineSimilarity a b = 0) := by
  refine ⟨fun _ _ => rfl, ?_⟩
  intro a b h
  unfold cosineSimilarity
  rw [if_pos h]

/-- Witness for the amended C5 at the length-2 versus length-3 vectors. -/
theorem dimensionMismatch_amended_witness :
    addDocumentChunksFallback [badDimChunk] [] = mapSet [] badDimChunk.id badDimChunk
    ∧ cosineSimilarity [1, 2] [1, 2, 3] = 0 :=
  ⟨dimensionMismatch_amended.1 badDimChunk [],
   dimensionMismatch_amended.2 [1, 2] [1, 2, 3] (by decide)⟩

/-- C2 counterexample: when both tiers of the prefix count throw, the
operation propagates the tier-1 error (`throw error`, line 450) instead of
returning the safe default 0, and likewise the prefix delete (`throw error`,
line 377) — refuting the claim that exhausting all tiers yields 0. -/
theorem cascade_cex :
    (countYoutubeTranscriptChunksQdrant ⟨.error (), .error ()⟩ "youtube_v").1 = .error ()
    ∧ (countYoutubeTranscriptChunksQdrant ⟨.error (), .error ()⟩ "youtube_v").1 ≠ .ok 0
    ∧ (deleteYoutubeTranscriptChunksQdrant ⟨.error (), .ok (), .error (), .ok ()⟩
        "youtube_v").1 = .error () := by
  refine ⟨rfl, ?_, rfl⟩
  exact fun h => Except.noConfusion h

/-- C2 amended: in every cascading tier chain a later tier runs only when
the previous tier raised (a zero/empty result is final at any tier and
issues no further backend call), but on exhaustion only the existence check
returns the safe default `false`; the count and delete operations re-throw
the first tier's error instead of returning 0 (that error is then absorbed
by the Coordinator's fallback routing, not by the adapter's tiers). -/
theorem cascade_amended :
    (∀ (b : ExistBackend) (pat : String) (c : Nat), b.countRes = .ok c →
        doesTranscriptExistQdrant b pat = (.ok (decide (0 < c)), ["count"]))
    ∧ (∀ (b : ExistBackend) (pat : String) (pts : List QPoint),
        b.countRes = .error () → b.scrollFilteredRes = .ok pts →
        doesTranscriptExistQdrant b pat =
          (.ok (decide (0 < pts.length)), ["count", "scrollFiltered"]))
    ∧ (∀ (b : ExistBackend) (pat : String),
        b.countRes = .error () → b.scrollFilteredRes = .error () →
        b.scrollPageRes = .error () →
        doesTranscriptExistQdrant b pat =
          (.ok false, ["count", "scrollFiltered", "scrollPage"]))
    ∧ (∀ (b : CountBackend) (pat : String) (c : Nat), b.countRes = .ok c →
        countYoutubeTranscriptChunksQdrant b pat = (.ok c, ["count"]))
    ∧ (∀ (b : CountBackend) (pat : String),
        b.countRes = .error () → b.scrollRes = .error () →
        countYoutubeTranscriptChunksQdrant b pat = (.error (), ["count", "scroll"]))
    ∧ (∀ (b : DeleteBackend) (pat : String), b.countRes = .ok 0 →
        deleteYoutubeTranscriptChunksQdrant b pat = (.ok 0, ["count"]))
    ∧ (∀ (b : DeleteBackend) (pat : String),
        b.countRes = .error () → b.scrollRes = .error () →
        deleteYoutubeTranscriptChunksQdrant b pat = (.error (), ["count", "scroll"])) := by
  refine ⟨?_, ?_, ?_, ?_, ?_, ?_, ?_⟩
  · intro b pat c h
    simp [doesTranscriptExistQdrant, h]
  · intro b pat pts h h'
    simp [doesTranscriptExistQdrant, h, h']
  · intro b pat h h' h''
    simp [doesTranscriptExistQdrant, h, h', h'']
  · intro b pat c h
    simp [countYoutubeTranscriptChunksQdrant, h]
  · intro b pat h h'
    simp [countYoutubeTranscriptChunksQdrant, h, h']
  · intro b pat h
    simp [deleteYoutubeTranscriptChunksQdrant, h]
  · intro b pat h h'
    simp [deleteYoutubeTranscriptChunksQdrant, deleteTier2, h, h']

/-- Witness for the amended C2: each clause applied at a concrete backend. -/
theorem cascade_amended_witness :
    doesTranscriptExistQdrant ⟨.ok 0, .error (), .error ()⟩ "p" = (.ok (decide (0 < 0)), ["count"])
    ∧ doesTranscriptExistQdrant ⟨.error (), .ok [], .error ()⟩ "p" =
        (.ok (decide (0 < ([] : List QPoint).length)), ["count", "scrollFiltered"])
    ∧ doesTranscriptExistQdrant ⟨.error (), .error (), .error ()⟩ "p" =
        (.ok false, ["count", "scrollFiltered", "scrollPage"])
    ∧ countYoutubeTranscriptChunksQdrant ⟨.ok 7, .error ()⟩ "p" = (.ok 7, ["count"])
    ∧ countYoutubeTranscriptChunksQdrant ⟨.error (), .error ()⟩ "p" =
        (.error (), ["count", "scroll"])
    ∧ deleteYoutubeTranscriptChunksQdrant ⟨.ok 0, .ok (), .ok [], .ok ()⟩ "p" =
        (.ok 0, ["count"])
    ∧ deleteYoutubeTranscriptChunksQdrant ⟨.error (), .ok (), .error (), .ok ()⟩ "p" =
        (.error (), ["count", "scroll"]) :=
  ⟨cascade_amended.1 _ "p" 0 rfl,
   cascade_amended.2.1 _ "p" [] rfl rfl,
   cascade_amended.2.2.1 _ "p" rfl rfl rfl,
   cascade_amended.2.2.2.1 _ "p" 7 rfl,
   cascade_amended.2.2.2.2.1 _ "p" rfl rfl,
   cascade_amended.2.2.2.2.2.1 _ "p" rfl,
   cascade_amended.2.2.2.2.2.2 _ "p" rfl rfl⟩

/-- C6 counterexample: with the first two tiers down and a 101-point
collection whose only matching record sits at position 101, the last tier of
`doesTranscriptExist` answers `false` although a matching record exists in
the collection — because it issues a single `scroll({limit: 100})` page
(lines 260–263) and never paginates further. -/
theorem existLastTier_cex :
    (doesTranscriptExistQdrant (existBackendDegraded collection101) "youtube_v").1 = .ok false
    ∧ collection101.any (fun pt => payloadIdMatches pt.payload "youtube_v") = true := by
  constructor
  · rfl
  · decide

/-- C6 amended: the last tier of the prefix existence check fetches a single
unfiltered scroll page of at most 100 records and tests only those
client-side; it returns true iff some record among the first 100 of the
collection has an id starting with the pattern, and so can miss matches
beyond the first page. -/
theorem existLastTier_amended (collection : List QPoint) (pat : String) :
    doesTranscriptExistQdrant (existBackendDegraded collection) pat =
      (.ok ((collection.take 100).any (fun pt => payloadIdMatches pt.payload pat)),
       ["count", "scrollFiltered", "scrollPage"]) := rfl

theorem warnOnce_isFallbackActive (st : FallbackState) (name : String) :
    (warnOnce st name).isFallbackActive = st.isFallbackActive := by
  unfold warnOnce
  split
  · rfl
  · rfl

/-- C1: the Coordinator's degraded flag is global across operations.  First
conjunct: one primary failure (in any operation, here with the
`forceFallback` argument the call sites pass, namely the not-yet-set flag)
sets the flag and returns the fallback's result.  Second conjunct: from any
degraded state, an arbitrary sequence of calls to arbitrary (possibly
different) operations leaves the flag set, never invokes any primary
function, and produces exactly the results of running the fallback bodies
alone (`runFallbackOnly`), with the same final local store. -/
theorem degradedFlagGlobal :
    (∀ (σ α : Type) (st : FallbackState) (store : σ) (name : String)
        (fallbackFn : σ → σ × α), st.isFallbackActive = false →
        (withFallback st store name fallbackFn (.error ()) st.isFallbackActive).state.isFallbackActive
            = true
        ∧ (withFallback st store name fallbackFn (.error ()) st.isFallbackActive).value
            = (fallbackFn store).2
        ∧ (withFallback st store name fallbackFn (.error ()) st.isFallbackActive).store
            = (fallbackFn store).1)
    ∧ (∀ (σ α : Type) (st : FallbackState) (store : σ) (ops : List (StoreOp σ α)),
        st.isFallbackActive = true →
        (runOps st store ops).1.isFallbackActive = true
        ∧ (runOps st store ops).2.1 = (runFallbackOnly store ops).1
        ∧ (runOps st store ops).2.2.map Prod.fst = (runFallbackOnly store ops).2
        ∧ ∀ vb ∈ (runOps st store ops).2.2, vb.2 = false) := by
  constructor
  · intro σ α st store name fallbackFn h
    rw [h]
    unfold withFallback
    simp [h, warnOnce_isFallbackActive]
  · intro σ α st store ops h
    induction ops generalizing st store with
    | nil =>
      simp [runOps, runFallbackOnly, h]
    | cons op ops ih =>
      have hstep :
          withFallback st store op.name op.fallbackFn op.qdrantRes st.isFallbackActive =
            ⟨warnOnce st op.name, (op.fallbackFn store).1, (op.fallbackFn store).2, false⟩ := by
        unfold withFallback
        rw [h]
        rfl
      have hflag : (warnOnce st op.name).isFallbackActive = true := by
        rw [warnOnce_isFallbackActive, h]
      obtain ⟨ih1, ih2, ih3, ih4⟩ := ih (warnOnce st op.name) (op.fallbackFn store).1 hflag
      refine ⟨?_, ?_, ?_, ?_⟩
      · simpa [runOps, hstep] using ih1
      · simpa [runOps, runFallbackOnly, hstep] using ih2
      · simpa [runOps, runFallbackOnly, hstep] using ih3
      · intro vb hvb
        simp only [runOps, hstep, List.mem_cons] at hvb
        rcases hvb with hvb | hvb
        · rw [hvb]
        · exact ih4 vb hvb

/-- Witness for C1: a failing primary on operation `op1` from a healthy
state, then a two-call sequence (`op2` with a healthy primary, `op3` with a
failing one) from a degraded state — both calls run the fallback alone. -/
theorem degradedFlagGlobal_witness :
    ((withFallback ⟨false, []⟩ (0 : Nat) "op1" (fun n => (n + 1, n)) (.error ())
        (FallbackState.isFallbackActive ⟨false, []⟩)).state.isFallbackActive = true
      ∧ (withFallback ⟨false, []⟩ (0 : Nat) "op1" (fun n => (n + 1, n)) (.error ())
          (FallbackState.isFallbackActive ⟨false, []⟩)).value = ((fun n => (n + 1, n)) 0).2
      ∧ (withFallback ⟨false, []⟩ (0 : Nat) "op1" (fun n => (n + 1, n)) (.error ())
          (FallbackState.isFallbackActive ⟨false, []⟩)).store = ((fun n => (n + 1, n)) 0).1)
    ∧ ((runOps ⟨true, ["op1"]⟩ (0 : Nat)
          [⟨"op2", fun n => (n + 1, n), .ok 99⟩, ⟨"op3", fun n => (n + 1, n), .error ()⟩]).1.isFallbackActive = true
      ∧ (runOps ⟨true, ["op1"]⟩ (0 : Nat)
          [⟨"op2", fun n => (n + 1, n), .ok 99⟩, ⟨"op3", fun n => (n + 1, n), .error ()⟩]).2.1 =
          (runFallbackOnly (0 : Nat)
            [⟨"op2", fun n => (n + 1, n), .ok 99⟩, ⟨"op3", fun n => (n + 1, n), .error ()⟩]).1
      ∧ (runOps ⟨true, ["op1"]⟩ (0 : Nat)
          [⟨"op2", fun n => (n + 1, n), .ok 99⟩, ⟨"op3", fun n => (n + 1, n), .error ()⟩]).2.2.map Prod.fst =
          (runFallbackOnly (0 : Nat)
            [⟨"op2", fun n => (n + 1, n), .ok 99⟩, ⟨"op3", fun n => (n + 1, n), .error ()⟩]).2
      ∧ ∀ vb ∈ (runOps ⟨true, ["op1"]⟩ (0 : Nat)
          [⟨"op2", fun n => (n + 1, n), .ok 99⟩, ⟨"op3", fun n => (n + 1, n), .error ()⟩]).2.2,
          vb.2 = false) :=
  ⟨degradedFlagGlobal.1 Nat Nat ⟨false, []⟩ 0 "op1" (fun n => (n + 1, n)) rfl,
   degradedFlagGlobal.2 Nat Nat ⟨true, ["op1"]⟩ 0
     [⟨"op2", fun n => (n + 1, n), .ok 99⟩, ⟨"op3", fun n => (n + 1, n), .error ()⟩] rfl⟩

/-- C8: for every store and every stored record `r` with a non-zero
embedding, searching the fallback path with an exact copy of `r`'s embedding
(and any positive limit) yields a non-empty result list whose first score is
exactly 1 — `r`'s own self-similarity — and in which every returned score is
at most 1, so 1.0 is the maximum among all returned scores. -/
theorem searchSelfMax (store : Store) (r : DocumentChunk) (limit : Nat)
    (hmem : r ∈ store.map Prod.snd) (hnz : sumSq r.embedding ≠ 0) (hlim : 1 ≤ limit) :
    cosineSimilarity r.embedding r.embedding = 1
    ∧ ∃ hd tl, searchByVectorFallback store r.embedding limit = hd :: tl
        ∧ hd.score = 1
        ∧ ∀ x ∈ searchByVectorFallback store r.embedding limit, x.score ≤ 1 := by
  have hself := cosineSimilarity_self r.embedding hnz
  refine ⟨hself, ?_⟩
  have hall : ∀ x ∈ (store.map Prod.snd).map (searchFallbackRow r.embedding), x.score ≤ 1 := by
    intro x hx
    obtain ⟨doc, _, rfl⟩ := List.mem_map.mp hx
    exact cosineSimilarity_le_one r.embedding doc.embedding
  have hperm :
      List.Perm (((store.map Prod.snd).map (searchFallbackRow r.embedding)).insertionSort scoreGE)
        ((store.map Prod.snd).map (searchFallbackRow r.embedding)) :=
    List.perm_insertionSort scoreGE _
  have hsorted :
      List.Sorted scoreGE
        (((store.map Prod.snd).map (searchFallbackRow r.embedding)).insertionSort scoreGE) :=
    List.sorted_insertionSort scoreGE _
  have hrowmem : searchFallbackRow r.embedding r ∈
      (store.map Prod.snd).map (searchFallbackRow r.embedding) :=
    List.mem_map_of_mem _ hmem
  have hrscore : (searchFallbackRow r.embedding r).score = 1 := hself
  have hrow_sorted : searchFallbackRow r.embedding r ∈
      ((store.map Prod.snd).map (searchFallbackRow r.embedding)).insertionSort scoreGE :=
    hperm.mem_iff.mpr hrowmem
  cases hcase :
      ((store.map Prod.snd).map (searchFallbackRow r.embedding)).insertionSort scoreGE with
  | nil =>
    rw [hcase] at hrow_sorted
    cases hrow_sorted
  | cons hd tl =>
    rw [hcase] at hrow_sorted hsorted
    have hhd_mem : hd ∈ (store.map Prod.snd).map (searchFallbackRow r.embedding) :=
      hperm.mem_iff.mp (hcase ▸ List.mem_cons_self hd tl)
    have hhd_le : hd.score ≤ 1 := hall hd hhd_mem
    have hhd_ge : (1 : ℝ) ≤ hd.score := by
      rcases List.mem_cons.mp hrow_sorted with heq | htl
      · rw [← heq, hrscore]
      · have hrel : (searchFallbackRow r.embedding r).score ≤ hd.score :=
          List.rel_of_sorted_cons hsorted _ htl
        rw [hrscore] at hrel
        exact hrel
    obtain ⟨k, hk⟩ : ∃ k, limit = k + 1 :=
      ⟨limit - 1, (Nat.succ_pred_eq_of_pos hlim).symm⟩
    refine ⟨hd, tl.take k, ?_, le_antisymm hhd_le hhd_ge, ?_⟩
    · unfold searchByVectorFallback
      rw [hcase, hk]
      rfl
    · intro x hx
      unfold searchByVectorFallback at hx
      exact hall x (hperm.mem_iff.mp (List.mem_of_mem_take hx))

/-- Witness for C8 at a two-record store with orthogonal unit embeddings,
searching with the first record's embedding at the default limit 10. -/
theorem searchSelfMax_witness :
    cosineSimilarity chunkAxis1.embedding chunkAxis1.embedding = 1
    ∧ ∃ hd tl, searchByVectorFallback storeAxes chunkAxis1.embedding 10 = hd :: tl
        ∧ hd.score = 1
        ∧ ∀ x ∈ searchByVectorFallback storeAxes chunkAxis1.embedding 10, x.score ≤ 1 :=
  searchSelfMax storeAxes chunkAxis1 10 (by decide)
    (by norm_num [chunkAxis1, mkChunk, sumSq]) (by decide)

end YitamAdmin
